import Mathlib

/-!
Verification of the sunspec_proxy ESPHome component
(src/components/sunspec_proxy/sunspec_proxy.{h,cpp}).

The C++ code is shallowly embedded: 16-bit registers and bytes are
natural numbers kept below 2^16 / 2^8 by explicit reductions mirroring
the C integer casts, the register image is a function from word offsets
to register values, and float arithmetic of the aggregator is modelled
over the rationals (the concrete inputs used in counterexamples are
exactly representable in binary32, so the rational and float
computations coincide on them).
-/

namespace SunspecProxy

/- Byte and word helpers, from be16 / put_be16 in sunspec_proxy.cpp. -/

def be16 (hi lo : Nat) : Nat := (hi % 256) * 256 + lo % 256

def encodeBE (v : Nat) : List Nat := [v / 256 % 256, v % 256]

/- CRC-16/Modbus, from calc_crc16_ in sunspec_proxy.cpp: init 0xFFFF,
reflected polynomial 0xA001, eight right-shift steps per byte. -/

def crcStep (c : Nat) : Nat := if c % 2 = 1 then (c / 2) ^^^ 0xA001 else c / 2

def crcBits : Nat → Nat → Nat
  | 0, c => c
  | n + 1, c => crcBits n (crcStep c)

def crc16 (data : List Nat) : Nat :=
  data.foldl (fun c b => crcBits 8 (c ^^^ b % 256)) 0xFFFF

/- An 8-byte Modbus RTU request frame: address, function code, register
(big-endian), value (big-endian), CRC little-endian.  This is the frame
layout built inline in forward_power_limit_ and send_rtu_request_. -/

def buildRtuFrame (addr fc reg val : Nat) : List Nat :=
  let body := [addr % 256, fc % 256, reg / 256 % 256, reg % 256, val / 256 % 256, val % 256]
  body ++ [crc16 body % 256, crc16 body / 256 % 256]

/- Hoymiles percentage clamp, from forward_power_limit_ (enabled branch):
hm_pct = pct_raw / 10, raised to 2, capped at 100. -/

def hmPct (pctRaw : Nat) : Nat :=
  let h0 := pctRaw / 10
  let h1 := if h0 < 2 then 2 else h0
  if h1 > 100 then 100 else h1

/- forward_power_limit_ from sunspec_proxy.cpp: for each configured
source (represented by its port number), when enabled emit a
WriteSingleRegister frame for the limit register 0xC007 + 6 * port
carrying the clamped percentage, followed by a WriteSingleCoil frame
for the on/off register 0xC006 + 6 * port carrying 0xFF00; when
disabled emit a single WriteSingleRegister frame carrying 100. -/

def forwardPowerLimit (dtu : Nat) (ports : List Nat) (pctRaw : Nat) (enabled : Bool) :
    List (List Nat) :=
  ports.flatMap fun port =>
    let onoffReg := 0xC006 + port * 6
    let limitReg := 0xC007 + port * 6
    if enabled then
      [buildRtuFrame dtu 6 limitReg (hmPct pctRaw), buildRtuFrame dtu 5 onoffReg 0xFF00]
    else
      [buildRtuFrame dtu 6 limitReg 100]

/- ============================================================
Register image and SunSpec register access
============================================================ -/

/- The register image register_map_[TOTAL_REGS] is modelled as a
function from word offsets to register values; TOTAL_REGS = 178,
logical base SUNSPEC_BASE = 40000, OFF_M123 = 150, OFF_END = 176. -/

def upd (img : Nat → Nat) (i v : Nat) : Nat → Nat :=
  fun j => if j = i then v else img j

/- Effect of the loop: for i in 0..count-1, map[off + i] = values[i]. -/

def setWords (img : Nat → Nat) (off count : Nat) (vals : List Nat) : Nat → Nat :=
  fun j => if off ≤ j ∧ j < off + count then vals.getD (j - off) 0 else img j

/- read_sunspec_registers_ from sunspec_proxy.cpp: reject start below
the base or a range running past TOTAL_REGS, else copy count words. -/

def readSunspecRegisters (img : Nat → Nat) (start count : Nat) : Option (List Nat) :=
  if start < 40000 then none
  else
    let off := start - 40000
    if off + count > 178 then none
    else some ((List.range count).map fun i => img (off + i))

/- write_sunspec_registers_ from sunspec_proxy.cpp: the writable window
is image offsets OFF_M123 + 2 = 152 up to but excluding OFF_END = 176.
On success the words are stored and the handler reports whether the
written range covered the WMaxLimPct word (offset 157) or the
WMaxLim_Ena word (offset 160); in that case the caller forwards the
power limit built from the freshly stored register values. -/

def writeSunspecRegisters (img : Nat → Nat) (start count : Nat) (vals : List Nat) :
    Option ((Nat → Nat) × Bool) :=
  if start < 40000 then none
  else
    let off := start - 40000
    if off < 152 ∨ off + count > 176 then none
    else
      let img2 := setWords img off count vals
      let changed := (List.range count).any fun i => (off + i == 157) || (off + i == 160)
      some (img2, changed)

/- ============================================================
Modbus TCP request processing
============================================================ -/

inductive Reply where
  | exc (code : Nat)
  | data (payload : List Nat)
deriving DecidableEq

/- Function-code 0x03 branch of process_tcp_request_: count above 125
is exception 0x03, a failed register read is exception 0x02, otherwise
the payload is the byte count followed by the words big-endian. -/

def fc3Handler (img : Nat → Nat) (start count : Nat) : Reply :=
  if count > 125 then .exc 3
  else
    match readSunspecRegisters img start count with
    | none => .exc 2
    | some vals => .data ((count * 2 % 256) :: vals.flatMap encodeBE)

/- Function-code 0x06 branch: delegate to the register writer with a
single word; echo the register and value on success.  The second
component is the image after the request, the third the forwarding
trigger (none when the write was rejected). -/

def fc6Handler (img : Nat → Nat) (reg val : Nat) : Reply × (Nat → Nat) × Option Bool :=
  match writeSunspecRegisters img reg 1 [val] with
  | none => (.exc 2, img, none)
  | some (img2, changed) => (.data (encodeBE reg ++ encodeBE val), img2, some changed)

/- Function-code 0x10 branch: a buffer shorter than 13 + 2 * count or a
count above 100 is exception 0x03; then delegate to the register
writer; echo the register and count on success. -/

def fc16Handler (img : Nat → Nat) (reg count len : Nat) (vals : List Nat) :
    Reply × (Nat → Nat) × Option Bool :=
  if len < 13 + count * 2 ∨ count > 100 then (.exc 3, img, none)
  else
    match writeSunspecRegisters img reg count vals with
    | none => (.exc 2, img, none)
    | some (img2, changed) => (.data (encodeBE reg ++ encodeBE count), img2, some changed)

/- MBAP response frame from send_tcp_response_: transaction id, proto
0, length 2 + payload length, unit id, function code, payload. -/

def mbapFrame (txn unit fc : Nat) (payload : List Nat) : List Nat :=
  encodeBE txn ++ encodeBE 0 ++ encodeBE (2 + payload.length) ++
    [unit % 256, fc % 256] ++ payload

/- send_tcp_error_ builds a response with fc ||| 0x80 and the exception
code as the single payload byte. -/

def mbapErrFrame (txn unit fc err : Nat) : List Nat :=
  mbapFrame txn unit (fc ||| 0x80) [err]

structure TcpCounters where
  requestCount : Nat
  errorCount : Nat
  lastActivityMs : Nat
deriving DecidableEq

/- process_tcp_request_ from sunspec_proxy.cpp.  Input: the configured
unit id, the register image, the activity counters, the received
buffer, the current time.  Output: the image after the request, the
updated counters, the list of frames sent on the socket, and the
forwarding trigger of a successful write (used by the caller to run
forward_power_limit_). -/

def processTcpRequest (cfgUnit : Nat) (img : Nat → Nat) (c : TcpCounters)
    (buf : List Nat) (now : Nat) :
    (Nat → Nat) × TcpCounters × List (List Nat) × Option Bool :=
  if buf.length < 8 then (img, c, [], none)
  else
    let txn := be16 (buf.getD 0 0) (buf.getD 1 0)
    let proto := be16 (buf.getD 2 0) (buf.getD 3 0)
    let unit := buf.getD 6 0 % 256
    let fc := buf.getD 7 0 % 256
    if proto ≠ 0 then (img, c, [], none)
    else
      let c := { c with lastActivityMs := now, requestCount := c.requestCount + 1 }
      if unit ≠ cfgUnit then (img, c, [], none)
      else if fc = 0x03 then
        if buf.length < 12 then (img, c, [], none)
        else
          let start := be16 (buf.getD 8 0) (buf.getD 9 0)
          let count := be16 (buf.getD 10 0) (buf.getD 11 0)
          match fc3Handler img start count with
          | .exc e => (img, { c with errorCount := c.errorCount + 1 },
              [mbapErrFrame txn unit fc e], none)
          | .data d => (img, c, [mbapFrame txn unit fc d], none)
      else if fc = 0x06 then
        if buf.length < 12 then (img, c, [], none)
        else
          let reg := be16 (buf.getD 8 0) (buf.getD 9 0)
          let val := be16 (buf.getD 10 0) (buf.getD 11 0)
          match fc6Handler img reg val with
          | (.exc e, _, _) => (img, { c with errorCount := c.errorCount + 1 },
              [mbapErrFrame txn unit fc e], none)
          | (.data d, img2, trig) => (img2, c, [mbapFrame txn unit fc d], trig)
      else if fc = 0x10 then
        if buf.length < 13 then (img, c, [], none)
        else
          let reg := be16 (buf.getD 8 0) (buf.getD 9 0)
          let count := be16 (buf.getD 10 0) (buf.getD 11 0)
          let vals := (List.range count).map fun i =>
            be16 (buf.getD (13 + 2 * i) 0) (buf.getD (14 + 2 * i) 0)
          match fc16Handler img reg count buf.length vals with
          | (.exc e, _, _) => (img, { c with errorCount := c.errorCount + 1 },
              [mbapErrFrame txn unit fc e], none)
          | (.data d, img2, trig) => (img2, c, [mbapFrame txn unit fc d], trig)
      else
        (img, { c with errorCount := c.errorCount + 1 }, [mbapErrFrame txn unit fc 1], none)

/- ============================================================
UART output of the TCP write path (shared-bus model)
============================================================ -/

/- Loop-level bus state: rtu_busy_ together with the register image.
The TCP write path (write_sunspec_registers_ followed by
forward_power_limit_) emits its RTU frames on the UART directly; the
definition below is the byte stream it produces.  Note that, exactly
as in the source, no step of this path consults rtu_busy_. -/

structure BusState where
  rtuBusy : Bool
  image : Nat → Nat

def tcpWriteUartBytes (dtu : Nat) (ports : List Nat) (st : BusState) (reg val : Nat) :
    List Nat :=
  match writeSunspecRegisters st.image reg 1 [val] with
  | none => []
  | some (img2, changed) =>
    if changed then (forwardPowerLimit dtu ports (img2 157) (img2 160 == 1)).flatten
    else []

/- ============================================================
Aggregation: power-factor path (float arithmetic over the rationals)
============================================================ -/

/- Reinterpret a 16-bit register as the int16 the C code casts it to. -/

def toInt16 (r : Nat) : Int :=
  if r % 65536 < 32768 then (r % 65536 : Int) else (r % 65536 : Int) - 65536

/- powf(10, sf) for an integer exponent, exact over the rationals. -/

def qpow10 (z : Int) : ℚ :=
  if 0 ≤ z then (10 : ℚ) ^ z.toNat else 1 / (10 : ℚ) ^ (-z).toNat

/- apply_sf from sunspec_proxy.cpp: raw 0x8000 is not-implemented
(NaN), otherwise the signed raw value scaled by 10^sf. -/

def applySfQ (raw sf : Nat) : Option ℚ :=
  if raw % 65536 = 0x8000 then none
  else some ((toInt16 raw : ℚ) * qpow10 (toInt16 sf))

/- Truncation toward zero, the behaviour of the C float-to-int cast. -/

def truncQ (q : ℚ) : Int := if 0 ≤ q then ⌊q⌋ else -⌊-q⌋

/- total_power of aggregate_and_update_registers_: sum of apply_sf of
register INV_W = 12 with scale factor INV_W_SF = 13 over the valid
sources, skipping NaN contributions.  A block is one source's raw_regs
array. -/

def totalPowerQ (blocks : List (List Nat)) : ℚ :=
  blocks.foldl (fun acc b =>
    match applySfQ (b.getD 12 0) (b.getD 13 0) with
    | none => acc
    | some p => acc + p) 0

/- total_va: sum of apply_sf of register INV_VA = 16 with scale factor
INV_VA_SF = 17, skipping NaN contributions. -/

def totalVaQ (blocks : List (List Nat)) : ℚ :=
  blocks.foldl (fun acc b =>
    match applySfQ (b.getD 16 0) (b.getD 17 0) with
    | none => acc
    | some v => acc + v) 0

/- The power-factor register write of aggregate_and_update_registers_:
only performed when total_va is positive; pf is capped above at 1 (no
lower cap), multiplied by 100, cast to int, to int16, to uint16. -/

def pfRegister (blocks : List (List Nat)) : Option Nat :=
  let tp := totalPowerQ blocks
  let tva := totalVaQ blocks
  if 0 < tva then
    let pf := tp / tva
    let pf2 := if 1 < pf then 1 else pf
    some (truncQ (pf2 * 100) % 65536).toNat
  else none

/- ============================================================
Static register map construction
============================================================ -/

/- Pack a byte string into registers as big-endian char pairs,
zero-padded, from write_string_regs in sunspec_proxy.cpp: character i
lands in the high byte of register i / 2 when i is even and in the low
byte when i is odd, for i below min(strlen, 2 * max_regs). -/

def stringRegs (s : List Nat) (maxRegs : Nat) : List Nat :=
  let len := min s.length (maxRegs * 2)
  (List.range maxRegs).map fun j =>
    let hi := if 2 * j < len then s.getD (2 * j) 0 % 256 * 256 else 0
    let lo := if 2 * j + 1 < len then s.getD (2 * j + 1) 0 % 256 else 0
    hi ||| lo

/- Store a list of words at consecutive offsets (the fill loops of
build_static_registers_). -/

def setList (img : Nat → Nat) (off : Nat) (vals : List Nat) : Nat → Nat :=
  setWords img off vals.length vals

/- The aggregated-device configuration fields consumed by
build_static_registers_ (strings as byte lists). -/

structure AggConfig where
  unitId : Nat
  phases : Nat
  ratedPowerW : Nat
  ratedCurrentA : ℚ
  manufacturer : List Nat
  modelName : List Nat
  serialNumber : List Nat

/- build_static_registers_ from sunspec_proxy.cpp, one update per
source statement, in source order.  Offsets: OFF_SUNS = 0, OFF_MODEL1
= 2, OFF_INV = 70, OFF_M120 = 122, OFF_M123 = 150, OFF_END = 176;
negative int16 scale factors appear as their uint16 images.  The
version string is the byte list of ASCII 1.1.0. -/

def buildStaticRegisters (cfg : AggConfig) : Nat → Nat :=
  let img : Nat → Nat := fun _ => 0xFFFF
  let img := upd img 0 0x5375
  let img := upd img 1 0x6e53
  let img := upd img 2 1
  let img := upd img 3 66
  let img := setList img 4 (List.replicate 66 0)
  let img := setList img 4 (stringRegs cfg.manufacturer 16)
  let img := setList img (4 + 16) (stringRegs cfg.modelName 16)
  let img := setList img (4 + 40) (stringRegs [49, 46, 49, 46, 48] 8)
  let img := setList img (4 + 48) (stringRegs cfg.serialNumber 16)
  let img := upd img (4 + 64) cfg.unitId
  let img := upd img (4 + 65) 0x8000
  let img := upd img 70 (if cfg.phases = 3 then 103 else 101)
  let img := upd img 71 50
  let img := setList img 72 (List.replicate 50 0xFFFF)
  let img := upd img (72 + 4) 65534
  let img := upd img (72 + 11) 65535
  let img := upd img (72 + 13) 0
  let img := upd img (72 + 15) 65534
  let img := upd img (72 + 17) 0
  let img := upd img (72 + 19) 0
  let img := upd img (72 + 21) 65534
  let img := upd img (72 + 24) 0
  let img := upd img (72 + 26) 65534
  let img := upd img (72 + 28) 65535
  let img := upd img (72 + 30) 0
  let img := upd img (72 + 35) 65535
  let img := upd img (72 + 36) 2
  let img := upd img (72 + 38) 0
  let img := upd img (72 + 39) 0
  let img := upd img (72 + 40) 0
  let img := upd img (72 + 41) 0
  let img := upd img (72 + 42) 0
  let img := upd img (72 + 43) 0
  let img := upd img (72 + 44) 0
  let img := upd img (72 + 45) 0
  let img := upd img (72 + 46) 0
  let img := upd img (72 + 47) 0
  let img := upd img (72 + 48) 0
  let img := upd img (72 + 49) 0
  let img := upd img 122 120
  let img := upd img 123 26
  let img := setList img 124 (List.replicate 26 0xFFFF)
  let img := upd img 124 4
  let img := upd img 125 cfg.ratedPowerW
  let img := upd img 126 0
  let img := upd img 127 cfg.ratedPowerW
  let img := upd img 128 0
  let img := upd img (124 + 10) (truncQ (cfg.ratedCurrentA * 10)).toNat
  let img := upd img (124 + 11) 65535
  let img := upd img 150 123
  let img := upd img 151 24
  let img := setList img 152 (List.replicate 24 0xFFFF)
  let img := upd img (152 + 2) 1
  let img := upd img (152 + 3) 65535
  let img := upd img (152 + 5) 1000
  let img := upd img (152 + 8) 0
  let img := upd img 176 0xFFFF
  let img := upd img 177 0
  img

/- Example configuration used in concrete evaluations: a 3 W source on
an 8 V nominal grid makes setup compute rated_current_a = 3/8 exactly
(binary32 represents 0.375 and the product 3.75 exactly, so the float
computation agrees with the rational one). -/

def cfgExample : AggConfig :=
  { unitId := 126, phases := 1, ratedPowerW := 3, ratedCurrentA := 3 / 8,
    manufacturer := [70], modelName := [72, 77], serialNumber := [88] }

/- ============================================================
RTU poll response handling
============================================================ -/

/- Per-source state of struct RtuSource in sunspec_proxy.h; decoded
float fields are rationals, strings are byte lists. -/

structure RtuSource where
  rawRegs : List Nat
  dataValid : Bool
  lastPollMs : Nat
  pollSuccessCount : Nat
  pollFailCount : Nat
  serialNumber : List Nat
  serialFromDtu : List Nat
  initialModel1Read : Bool
  pvVoltageV : ℚ
  pvCurrentA : ℚ
  voltageV : ℚ
  frequencyHz : ℚ
  pvPowerW : ℚ
  powerW : ℚ
  currentA : ℚ
  todayEnergyWh : ℚ
  energyKwh : ℚ
  temperatureC : ℚ
  operatingStatus : Nat
  alarmCode : Nat
  linkStatus : Nat
  producing : Bool
deriving DecidableEq

/- reg_data of poll_rtu_sources_: word i of the fc 0x03 payload, for i
below both the register count (byte count / 2) and 64; 0 otherwise. -/

def parseRegData (resp : List Nat) (i : Nat) : Nat :=
  let regCount := resp.getD 2 0 % 256 / 2
  if i < regCount ∧ i < 64 then be16 (resp.getD (3 + 2 * i) 0) (resp.getD (4 + 2 * i) 0)
  else 0

/- Trailing NUL and space trim of the serial extraction. -/

def trimTrailing (l : List Nat) : List Nat :=
  (l.reverse.dropWhile fun c => c == 0 || c == 32).reverse

/- Serial number characters from payload words 1 .. 6 (12 ASCII
characters, high byte first), zero-filled where the payload is short,
then trimmed. -/

def extractSerial (resp : List Nat) : List Nat :=
  let regCount := resp.getD 2 0 % 256 / 2
  trimTrailing ((List.range 6).flatMap fun i =>
    if 1 + i < regCount then
      [parseRegData resp (1 + i) / 256 % 256, parseRegData resp (1 + i) % 256]
    else [0, 0])

/- The response-dispatch branch of poll_rtu_sources_ for a nonempty
CRC-valid response (the n greater than zero case): an fc 0x03 frame
with at least 34 registers updates the decoded fields, the timestamp,
the validity flag and the success counter and reports that the
aggregator is invoked (second component true); any other frame only
bumps poll_fail_count.  Exactly as in the source, the parsed register
block is decoded into scalar fields but never copied into rawRegs.
Hoymiles offsets: PV voltage 8, PV current 9 (halved), grid voltage
10, grid frequency 11 (divided by 100), PV power 12, today production
13 and 14, total production 15 and 16, temperature 17 (signed), status
30, alarm 31, link 32 (low byte). -/

def handleRtuResponse (s : RtuSource) (resp : List Nat) (now : Nat) : RtuSource × Bool :=
  if 5 ≤ resp.length ∧ resp.getD 1 0 % 256 = 3 then
    let regCount := resp.getD 2 0 % 256 / 2
    if 34 ≤ regCount then
      let r := parseRegData resp
      let s1 :=
        if ¬ s.initialModel1Read then
          let sn := extractSerial resp
          let s2 :=
            if sn.getD 0 0 ≠ 0 then
              { s with
                serialFromDtu := sn
                serialNumber := if s.serialNumber.getD 0 0 = 0 then sn else s.serialNumber }
            else s
          { s2 with initialModel1Read := true }
        else s
      let gridV : ℚ := (r 10 : ℚ)
      let pvP : ℚ := (r 12 : ℚ)
      let s3 := { s1 with
        pvVoltageV := (r 8 : ℚ)
        pvCurrentA := (r 9 : ℚ) / 2
        voltageV := gridV
        frequencyHz := (r 11 : ℚ) / 100
        pvPowerW := pvP
        powerW := pvP
        todayEnergyWh := ((r 13 * 65536 + r 14 : Nat) : ℚ)
        energyKwh := ((r 15 * 65536 + r 16 : Nat) : ℚ) / 1000
        temperatureC := (toInt16 (r 17) : ℚ)
        operatingStatus := r 30
        alarmCode := r 31
        linkStatus := r 32 % 256
        producing := 0 < pvP
        currentA := if 0 < gridV then pvP / gridV else s1.currentA
        dataValid := true
        lastPollMs := now
        pollSuccessCount := s.pollSuccessCount + 1 }
      (s3, true)
    else ({ s with pollFailCount := s.pollFailCount + 1 }, false)
  else if 2 ≤ resp.length ∧ 128 ≤ resp.getD 1 0 % 256 then
    ({ s with pollFailCount := s.pollFailCount + 1 }, false)
  else
    ({ s with pollFailCount := s.pollFailCount + 1 }, false)

/- A freshly added source (add_rtu_source zeroes the whole struct). -/

def freshSource : RtuSource :=
  { rawRegs := List.replicate 50 0, dataValid := false, lastPollMs := 0,
    pollSuccessCount := 0, pollFailCount := 0, serialNumber := [], serialFromDtu := [],
    initialModel1Read := false, pvVoltageV := 0, pvCurrentA := 0, voltageV := 0,
    frequencyHz := 0, pvPowerW := 0, powerW := 0, currentA := 0, todayEnergyWh := 0,
    energyKwh := 0, temperatureC := 0, operatingStatus := 0, alarmCode := 0,
    linkStatus := 0, producing := false }

/- A successful poll response: address 126, fc 0x03, 80 payload bytes
encoding words 1 .. 40, a CRC trailer (already validated upstream in
read_rtu_response_, so its value is irrelevant here). -/

def pollResp : List Nat :=
  126 :: 3 :: 80 :: ((List.range 40).flatMap fun i => [0, i + 1]) ++ [9, 9]


theorem hmPct_eq_clamp (p : Nat) : hmPct p = min 100 (max 2 (p / 10)) := by
  unfold hmPct
  simp only [Nat.min_def, Nat.max_def]
  split_ifs <;> omega

/-- C4: for every configured source, forward_power_limit with enabled =
true emits exactly one WriteSingleRegister frame (fc 0x06) to the DTU
address at register 0xC007 + 6 * port carrying clamp(pct_raw / 10, 2,
100), followed by exactly one WriteSingleCoil frame (fc 0x05) at
register 0xC006 + 6 * port carrying 0xFF00; with enabled = false it
emits exactly one WriteSingleRegister frame carrying 100 and no coil
write.  In particular pct_raw = 330 yields 33, 5 yields 2, 2000 yields
100. -/
theorem forward_power_limit_frames (dtu : Nat) (ports : List Nat) (pctRaw : Nat) :
    forwardPowerLimit dtu ports pctRaw true =
      ports.flatMap (fun port =>
        [buildRtuFrame dtu 6 (0xC007 + port * 6) (min 100 (max 2 (pctRaw / 10))),
         buildRtuFrame dtu 5 (0xC006 + port * 6) 0xFF00]) ∧
    forwardPowerLimit dtu ports pctRaw false =
      ports.flatMap (fun port => [buildRtuFrame dtu 6 (0xC007 + port * 6) 100]) ∧
    hmPct 330 = 33 ∧ hmPct 5 = 2 ∧ hmPct 2000 = 100 := by
  refine ⟨?_, rfl, by decide, by decide, by decide⟩
  simp only [forwardPowerLimit, hmPct_eq_clamp]
  rfl

/- ============================================================
Claims about TCP request handling
============================================================ -/

/-- C2: for every Read Holding Registers request addressed to the
configured unit id: count above 125 answers exception 0x03; otherwise
start below 40000 or start - 40000 + count above TOTAL_REGS = 178
answers exception 0x02; otherwise the payload is the byte count
followed by exactly the image words start - 40000 .. start - 40000 +
count - 1 encoded big-endian. -/
theorem read_holding_range (img : Nat → Nat) (start count : Nat) :
    (count > 125 → fc3Handler img start count = .exc 3) ∧
    (count ≤ 125 → start < 40000 ∨ start - 40000 + count > 178 →
      fc3Handler img start count = .exc 2) ∧
    (count ≤ 125 → 40000 ≤ start → start - 40000 + count ≤ 178 →
      fc3Handler img start count =
        .data (2 * count ::
          ((List.range count).map fun i => img (start - 40000 + i)).flatMap encodeBE)) := by
  refine ⟨fun h => ?_, fun h1 h2 => ?_, fun h1 h2 h3 => ?_⟩
  · simp [fc3Handler, h]
  · have hc : ¬ count > 125 := by omega
    rcases h2 with h | h
    · simp [fc3Handler, readSunspecRegisters, hc, h]
    · by_cases hs : start < 40000
      · simp [fc3Handler, readSunspecRegisters, hc, hs]
      · simp [fc3Handler, readSunspecRegisters, hc, hs, h]
  · have hc : ¬ count > 125 := by omega
    have hs : ¬ start < 40000 := by omega
    have hr : ¬ (start - 40000 + count > 178) := by omega
    have hm : count * 2 % 256 = 2 * count := by omega
    simp [fc3Handler, readSunspecRegisters, hc, hs, hr, hm]

theorem read_holding_range_witness :
    fc3Handler (fun _ => 7) 40176 2 =
      .data (2 * 2 ::
        ((List.range 2).map fun i => (fun _ => 7 : Nat → Nat) (40176 - 40000 + i)).flatMap
          encodeBE) :=
  (read_holding_range (fun _ => 7) 40176 2).2.2 (by decide) (by decide) (by decide)

/-- C9: every MBAP-framed TCP request whose unit id differs from the
configured aggregate unit id produces no bytes on the socket, neither
a response nor an exception frame. -/
theorem unit_id_filter (cfgUnit : Nat) (img : Nat → Nat) (c : TcpCounters)
    (buf : List Nat) (now : Nat) (h : buf.getD 6 0 % 256 ≠ cfgUnit) :
    (processTcpRequest cfgUnit img c buf now).2.2.1 = [] := by
  simp only [processTcpRequest]
  by_cases h1 : buf.length < 8
  · rw [if_pos h1]
  · rw [if_neg h1]
    by_cases h2 : be16 (buf.getD 2 0) (buf.getD 3 0) ≠ 0
    · rw [if_pos h2]
    · rw [if_neg h2, if_pos h]

theorem unit_id_filter_witness :
    (processTcpRequest 126 (fun _ => 0) ⟨0, 0, 0⟩ [0, 1, 0, 0, 0, 6, 5, 3, 156, 64, 0, 2]
      1000).2.2.1 = [] :=
  unit_id_filter 126 (fun _ => 0) ⟨0, 0, 0⟩ [0, 1, 0, 0, 0, 6, 5, 3, 156, 64, 0, 2] 1000
    (by decide)

/-- C10: for every incoming TCP buffer of length at least 8 whose MBAP
protocol field is 0, process_tcp_request_ increments tcp_request_count
and sets last_tcp_activity_ms to the current time, even when the unit
id does not match and the request is dropped; buffers shorter than 8
bytes or with a nonzero protocol field leave the counters unchanged. -/
theorem tcp_counters_effect (cfgUnit : Nat) (img : Nat → Nat) (c : TcpCounters)
    (buf : List Nat) (now : Nat) :
    (8 ≤ buf.length → be16 (buf.getD 2 0) (buf.getD 3 0) = 0 →
      (processTcpRequest cfgUnit img c buf now).2.1.requestCount = c.requestCount + 1 ∧
      (processTcpRequest cfgUnit img c buf now).2.1.lastActivityMs = now) ∧
    (buf.length < 8 ∨ be16 (buf.getD 2 0) (buf.getD 3 0) ≠ 0 →
      (processTcpRequest cfgUnit img c buf now).2.1 = c) := by
  constructor
  · intro h1 h2
    have h1' : ¬ buf.length < 8 := by omega
    have h2' : ¬ be16 (buf.getD 2 0) (buf.getD 3 0) ≠ 0 := not_not_intro h2
    constructor <;>
      · simp only [processTcpRequest]
        rw [if_neg h1', if_neg h2']
        split_ifs <;> (try rfl) <;> (split <;> rfl)
  · intro h
    simp only [processTcpRequest]
    rcases h with h | h
    · rw [if_pos h]
    · by_cases h1 : buf.length < 8
      · rw [if_pos h1]
      · rw [if_neg h1, if_pos h]

theorem tcp_counters_effect_witness :
    (processTcpRequest 126 (fun _ => 0) ⟨4, 0, 17⟩ [0, 1, 0, 0, 0, 6, 5, 3, 156, 64, 0, 2]
        1000).2.1.requestCount = 4 + 1 ∧
    (processTcpRequest 126 (fun _ => 0) ⟨4, 0, 17⟩ [0, 1, 0, 0, 0, 6, 5, 3, 156, 64, 0, 2]
        1000).2.1.lastActivityMs = 1000 :=
  (tcp_counters_effect 126 (fun _ => 0) ⟨4, 0, 17⟩
    [0, 1, 0, 0, 0, 6, 5, 3, 156, 64, 0, 2] 1000).1 (by decide) (by decide)

set_option maxRecDepth 4000 in
/-- C3 counterexample: a Write Multiple Registers request at 40152 with
count 101 targets a range that is not entirely inside the Model 123
payload (152 + 101 exceeds 176), yet the server answers exception 0x03
(the count bound fires first), not exception 0x02 as the claim
states. -/
theorem write_region_cex :
    152 + 101 > 176 ∧
    fc16Handler (fun _ => 0xFFFF) 40152 101 1000 (List.replicate 101 0) =
      (.exc 3, (fun _ => 0xFFFF), none) ∧
    Reply.exc 3 ≠ Reply.exc 2 := by
  refine ⟨by decide, rfl, by decide⟩

/-- C3 (amended): for fc 0x06, and for fc 0x10 once the earlier length
and count-at-most-100 screen has passed, a write whose target range is
not entirely inside holding registers 40152 .. 40175 is rejected with
exception 0x02 and leaves the image unchanged; a write entirely inside
stores the words verbatim and is answered with an echo response.  A
fc 0x10 request with count above 100 or a short buffer is instead
rejected earlier with exception 0x03. -/
theorem write_region_validation (img : Nat → Nat) :
    (∀ reg val : Nat,
      (reg < 40152 ∨ 40176 ≤ reg → fc6Handler img reg val = (.exc 2, img, none)) ∧
      (40152 ≤ reg → reg < 40176 →
        (fc6Handler img reg val).1 = .data (encodeBE reg ++ encodeBE val) ∧
        (fc6Handler img reg val).2.1 (reg - 40000) = val ∧
        (∀ j, j ≠ reg - 40000 → (fc6Handler img reg val).2.1 j = img j))) ∧
    (∀ reg count len : Nat, ∀ vals : List Nat, 13 + count * 2 ≤ len → count ≤ 100 →
      (¬ (40152 ≤ reg ∧ reg - 40000 + count ≤ 176) →
        fc16Handler img reg count len vals = (.exc 2, img, none)) ∧
      (40152 ≤ reg → reg - 40000 + count ≤ 176 →
        (fc16Handler img reg count len vals).1 = .data (encodeBE reg ++ encodeBE count) ∧
        (∀ i, i < count →
          (fc16Handler img reg count len vals).2.1 (reg - 40000 + i) = vals.getD i 0) ∧
        (∀ j, j < reg - 40000 ∨ reg - 40000 + count ≤ j →
          (fc16Handler img reg count len vals).2.1 j = img j))) := by
  have hw : ∀ start count vals, (start < 40000 ∨ start - 40000 < 152 ∨
      start - 40000 + count > 176) → writeSunspecRegisters img start count vals = none := by
    intro start count vals h
    unfold writeSunspecRegisters
    by_cases hs : start < 40000
    · rw [if_pos hs]
    · rw [if_neg hs, if_pos (by omega)]
  have hw2 : ∀ start count vals, 40000 ≤ start → 152 ≤ start - 40000 →
      start - 40000 + count ≤ 176 →
      writeSunspecRegisters img start count vals =
        some (setWords img (start - 40000) count vals,
          (List.range count).any fun i =>
            (start - 40000 + i == 157) || (start - 40000 + i == 160)) := by
    intro start count vals h1 h2 h3
    unfold writeSunspecRegisters
    rw [if_neg (by omega), if_neg (by omega)]
  constructor
  · intro reg val
    constructor
    · intro h
      have : writeSunspecRegisters img reg 1 [val] = none := by
        apply hw; omega
      simp [fc6Handler, this]
    · intro h1 h2
      rw [fc6Handler, hw2 reg 1 [val] (by omega) (by omega) (by omega)]
      refine ⟨rfl, ?_, ?_⟩
      · simp [setWords]
      · intro j hj
        simp only [setWords]
        rw [if_neg (by omega)]
  · intro reg count len vals hlen hcount
    constructor
    · intro h
      rw [fc16Handler, if_neg (by omega),
        hw reg count vals (by omega)]
    · intro h1 h2
      rw [fc16Handler, if_neg (by omega), hw2 reg count vals (by omega) (by omega) (by omega)]
      refine ⟨rfl, ?_, ?_⟩
      · intro i hi
        simp only [setWords]
        rw [if_pos (by omega), show reg - 40000 + i - (reg - 40000) = i from by omega]
      · intro j hj
        simp only [setWords]
        rw [if_neg (by omega)]

theorem write_region_validation_witness :
    fc6Handler (fun _ => 0) 40100 5 = (.exc 2, (fun _ => 0), none) ∧
    (fc6Handler (fun _ => 0) 40160 1 : Reply × (Nat → Nat) × Option Bool).1 =
      .data (encodeBE 40160 ++ encodeBE 1) ∧
    (fc6Handler (fun _ => 0) 40160 1).2.1 (40160 - 40000) = 1 :=
  ⟨((write_region_validation (fun _ => 0)).1 40100 5).1 (Or.inl (by decide)),
   (((write_region_validation (fun _ => 0)).1 40160 1).2 (by decide) (by decide)).1,
   (((write_region_validation (fun _ => 0)).1 40160 1).2 (by decide) (by decide)).2.1⟩

/-- C5 counterexample: with WMaxLimPct already 1000, a single-register
write of 1000 to holding register 40157 leaves both control words at
their previous values, yet the forwarding trigger computed by
write_sunspec_registers_ is true: the code triggers on range coverage,
not on an actual value change. -/
theorem forward_trigger_cex :
    (fun j => if j = 157 then 1000 else 0xFFFF : Nat → Nat) 157 = 1000 ∧
    (writeSunspecRegisters (fun j => if j = 157 then 1000 else 0xFFFF) 40157 1 [1000]).map
      (fun p => p.2) = some true ∧
    (writeSunspecRegisters (fun j => if j = 157 then 1000 else 0xFFFF) 40157 1 [1000]).map
      (fun p => p.1 157) = some 1000 ∧
    (writeSunspecRegisters (fun j => if j = 157 then 1000 else 0xFFFF) 40157 1 [1000]).map
      (fun p => p.1 160) = some 0xFFFF := by
  refine ⟨rfl, rfl, rfl, rfl⟩

/-- C5 (amended): after a successful TCP write into the Model 123
region, forward_power_limit is triggered if and only if the written
range covers at least one of the two control words, WMaxLimPct at
image offset 157 or WMaxLim_Ena at image offset 160, regardless of
whether the stored values differ from the previous ones. -/
theorem forward_trigger_condition (img img2 : Nat → Nat) (reg count : Nat)
    (vals : List Nat) (changed : Bool)
    (h : writeSunspecRegisters img reg count vals = some (img2, changed)) :
    changed = true ↔
      ∃ i, i < count ∧ (reg - 40000 + i = 157 ∨ reg - 40000 + i = 160) := by
  unfold writeSunspecRegisters at h
  by_cases hs : reg < 40000
  · rw [if_pos hs] at h; exact absurd h (by simp)
  · rw [if_neg hs] at h
    by_cases hr : reg - 40000 < 152 ∨ reg - 40000 + count > 176
    · rw [if_pos hr] at h; exact absurd h (by simp)
    · rw [if_neg hr] at h
      have hch : ((List.range count).any fun i =>
          (reg - 40000 + i == 157) || (reg - 40000 + i == 160)) = changed := by
        have hmap := congrArg (fun o => Option.map Prod.snd o) h
        simpa using hmap
      rw [← hch]
      simp [List.any_eq_true, List.mem_range]

theorem forward_trigger_condition_witness :
    (true = true ↔ ∃ i, i < 1 ∧ (40157 - 40000 + i = 157 ∨ 40157 - 40000 + i = 160)) :=
  forward_trigger_condition (fun _ => 0) _ 40157 1 [500] true rfl

/-- C6: the command translator reached from a TCP write emits its RTU
frames on the UART without consulting rtu_busy_: in a state where
rtu_busy_ is true (a poll response is inflight), a write to holding
register 40157 still produces a nonempty UART byte stream, and the
stream does not depend on rtu_busy_ at all.  This refutes the claim
that bytes are emitted only at steps where rtu_busy is false. -/
theorem uart_write_while_busy :
    (BusState.mk true (fun _ => 0xFFFF)).rtuBusy = true ∧
    tcpWriteUartBytes 126 [0] (BusState.mk true (fun _ => 0xFFFF)) 40157 500 ≠ [] ∧
    (∀ b : Bool,
      tcpWriteUartBytes 126 [0] (BusState.mk b (fun _ => 0xFFFF)) 40157 500 =
        tcpWriteUartBytes 126 [0] (BusState.mk true (fun _ => 0xFFFF)) 40157 500) := by
  refine ⟨rfl, by decide, fun b => rfl⟩

/-- C7 counterexample: one valid source whose block reports W = -1
(register 0xFFFF, scale factor 0) and VA = 1 (scale factor 0) gives
total_va = 1 greater than 0 and total_power = -1; the upper-only cap
leaves pf = -1, and the int16-to-uint16 cast stores 65436 in INV_PF,
outside [0, 100] under either the unsigned or the signed (-100)
reading.  All values involved are exactly representable in binary32,
so the float computation of the source agrees with this rational
evaluation. -/
theorem pf_range_cex :
    0 < totalVaQ [[0, 0, 0, 0, 0, 0, 0, 0, 0, 0, 0, 0, 65535, 0, 0, 0, 1, 0]] ∧
    pfRegister [[0, 0, 0, 0, 0, 0, 0, 0, 0, 0, 0, 0, 65535, 0, 0, 0, 1, 0]] =
      some 65436 ∧
    ¬ (65436 : Nat) ≤ 100 := by
  have hp : totalPowerQ [[0, 0, 0, 0, 0, 0, 0, 0, 0, 0, 0, 0, 65535, 0, 0, 0, 1, 0]] =
      -1 := by
    norm_num [totalPowerQ, applySfQ, toInt16, qpow10]
  have hva : totalVaQ [[0, 0, 0, 0, 0, 0, 0, 0, 0, 0, 0, 0, 65535, 0, 0, 0, 1, 0]] =
      1 := by
    norm_num [totalVaQ, applySfQ, toInt16, qpow10]
  refine ⟨by rw [hva]; norm_num, ?_, by norm_num⟩
  simp only [pfRegister, hp, hva]
  norm_num [truncQ]
  decide

/-- C7 (amended): whenever aggregation runs with total_va greater than
0 and the summed power is nonnegative, the INV_PF register is written
with a value in [0, 100]; the lower bound needs the nonnegative-power
hypothesis because the code only caps the power factor from above. -/
theorem pf_register_clamp (blocks : List (List Nat))
    (hva : 0 < totalVaQ blocks) (hp : 0 ≤ totalPowerQ blocks) :
    ∃ v, pfRegister blocks = some v ∧ v ≤ 100 := by
  unfold pfRegister
  rw [if_pos hva]
  set pf := totalPowerQ blocks / totalVaQ blocks with hpf
  have hpf0 : 0 ≤ pf := div_nonneg hp (le_of_lt hva)
  set pf2 := if 1 < pf then 1 else pf with hpf2
  have h0 : 0 ≤ pf2 := by
    rw [hpf2]; split_ifs; exacts [zero_le_one, hpf0]
  have h1 : pf2 ≤ 1 := by
    rw [hpf2]; split_ifs with h; exacts [le_refl 1, not_lt.mp h]
  have hq0 : (0 : ℚ) ≤ pf2 * 100 := by positivity
  have hq1 : pf2 * 100 ≤ 100 := by nlinarith
  have ht : truncQ (pf2 * 100) = ⌊pf2 * 100⌋ := if_pos hq0
  refine ⟨(truncQ (pf2 * 100) % 65536).toNat, rfl, ?_⟩
  rw [ht]
  have hf0 : 0 ≤ ⌊pf2 * 100⌋ := Int.floor_nonneg.mpr hq0
  have hf1 : ⌊pf2 * 100⌋ ≤ 100 := by
    calc ⌊pf2 * 100⌋ ≤ ⌊(100 : ℚ)⌋ := Int.floor_le_floor hq1
    _ = 100 := by norm_num
  rw [Int.emod_eq_of_lt hf0 (by omega)]
  omega

theorem pf_register_clamp_witness :
    ∃ v, pfRegister [[0, 0, 0, 0, 0, 0, 0, 0, 0, 0, 0, 0, 650, 0, 0, 0, 650, 0]] =
      some v ∧ v ≤ 100 :=
  pf_register_clamp [[0, 0, 0, 0, 0, 0, 0, 0, 0, 0, 0, 0, 650, 0, 0, 0, 650, 0]]
    (by norm_num [totalVaQ, applySfQ, toInt16, qpow10])
    (by norm_num [totalPowerQ, applySfQ, toInt16, qpow10])

theorem stringRegs_length (s : List Nat) (m : Nat) : (stringRegs s m).length = m := by
  simp [stringRegs]

theorem buildStatic_at_artg (cfg : AggConfig) :
    buildStaticRegisters cfg 134 = (truncQ (cfg.ratedCurrentA * 10)).toNat := by
  simp only [buildStaticRegisters, upd, setList, setWords, stringRegs_length,
    List.length_replicate]
  norm_num

/-- C8 counterexample: with rated_current_a = 3/8 (13 W at 8 V is
summed as 3/8 A in setup; all operations exact in binary32), the ARtg
register receives the float-to-uint16 truncation of 3.75, which is 3,
while round(rated_current_a * 10) = round(3.75) = 4 as the claim
states. -/
theorem static_artg_cex :
    buildStaticRegisters cfgExample 134 = 3 ∧
    round (cfgExample.ratedCurrentA * 10) = 4 ∧
    (3 : Nat) ≠ 4 := by
  refine ⟨?_, ?_, by decide⟩
  · rw [buildStatic_at_artg]
    norm_num [cfgExample, truncQ]
    decide
  · rw [show cfgExample.ratedCurrentA = 3 / 8 from rfl]
    norm_num [round_eq]

/-- C8 (amended): build_static_registers_ produces the documented
image: SunS signature, model ids and lengths 1/66 at offsets 2-3,
101-or-103/50 at 70-71, 120/26 at 122-123, 123/24 at 150-151, End
marker at 176-177, the I3 scale-factor constants, the nameplate fields
with DERTyp 4, WRtg and VARtg the rated power and their scale factors
0, ARtg_SF -1, and ARtg the TRUNCATION (not the rounding) of
rated_current_a * 10; registers of the populated payloads that no
statement assigns keep the 0xFFFF fill. -/
theorem static_register_image (cfg : AggConfig) :
    buildStaticRegisters cfg 0 = 0x5375 ∧
    buildStaticRegisters cfg 1 = 0x6e53 ∧
    buildStaticRegisters cfg 2 = 1 ∧
    buildStaticRegisters cfg 3 = 66 ∧
    buildStaticRegisters cfg 70 = (if cfg.phases = 3 then 103 else 101) ∧
    buildStaticRegisters cfg 71 = 50 ∧
    buildStaticRegisters cfg 122 = 120 ∧
    buildStaticRegisters cfg 123 = 26 ∧
    buildStaticRegisters cfg 150 = 123 ∧
    buildStaticRegisters cfg 151 = 24 ∧
    buildStaticRegisters cfg 176 = 0xFFFF ∧
    buildStaticRegisters cfg 177 = 0 ∧
    buildStaticRegisters cfg 76 = 65534 ∧
    buildStaticRegisters cfg 83 = 65535 ∧
    buildStaticRegisters cfg 85 = 0 ∧
    buildStaticRegisters cfg 87 = 65534 ∧
    buildStaticRegisters cfg 89 = 0 ∧
    buildStaticRegisters cfg 91 = 0 ∧
    buildStaticRegisters cfg 93 = 65534 ∧
    buildStaticRegisters cfg 96 = 0 ∧
    buildStaticRegisters cfg 98 = 65534 ∧
    buildStaticRegisters cfg 100 = 65535 ∧
    buildStaticRegisters cfg 102 = 0 ∧
    buildStaticRegisters cfg 107 = 65535 ∧
    buildStaticRegisters cfg 124 = 4 ∧
    buildStaticRegisters cfg 125 = cfg.ratedPowerW ∧
    buildStaticRegisters cfg 126 = 0 ∧
    buildStaticRegisters cfg 127 = cfg.ratedPowerW ∧
    buildStaticRegisters cfg 128 = 0 ∧
    buildStaticRegisters cfg 134 = (truncQ (cfg.ratedCurrentA * 10)).toNat ∧
    buildStaticRegisters cfg 135 = 65535 ∧
    buildStaticRegisters cfg 72 = 0xFFFF ∧
    buildStaticRegisters cfg 129 = 0xFFFF ∧
    buildStaticRegisters cfg 152 = 0xFFFF := by
  refine ⟨?_, ?_, ?_, ?_, ?_, ?_, ?_, ?_, ?_, ?_, ?_, ?_, ?_, ?_, ?_, ?_, ?_, ?_, ?_,
    ?_, ?_, ?_, ?_, ?_, ?_, ?_, ?_, ?_, ?_, buildStatic_at_artg cfg, ?_, ?_, ?_, ?_⟩ <;>
    · simp only [buildStaticRegisters, upd, setList, setWords, stringRegs_length,
        List.length_replicate]
      norm_num

/-- C1: on a successful RTU poll response (fc 0x03 with at least 34
registers) the poller sets data_valid, last_poll_ms and the success
counter, decodes the scalar fields and invokes the aggregator, but it
never copies the parsed register block into the raw_regs buffer: after
the poll that parses word 0 = 1 and word 12 = 13, raw_regs is still
the all-zero array of add_rtu_source.  The aggregator later reads
those stale zeroes as the SunSpec block of this source, contradicting
the raw_regs documentation in sunspec_proxy.h. -/
theorem rtu_poll_raw_regs_bug :
    (handleRtuResponse freshSource pollResp 777).2 = true ∧
    (handleRtuResponse freshSource pollResp 777).1.dataValid = true ∧
    (handleRtuResponse freshSource pollResp 777).1.lastPollMs = 777 ∧
    (handleRtuResponse freshSource pollResp 777).1.pollSuccessCount = 1 ∧
    (handleRtuResponse freshSource pollResp 777).1.powerW = 13 ∧
    parseRegData pollResp 0 = 1 ∧
    parseRegData pollResp 12 = 13 ∧
    (handleRtuResponse freshSource pollResp 777).1.rawRegs = freshSource.rawRegs ∧
    (handleRtuResponse freshSource pollResp 777).1.rawRegs.getD 0 0 = 0 ∧
    (handleRtuResponse freshSource pollResp 777).1.rawRegs.getD 12 0 = 0 := by
  refine ⟨rfl, rfl, rfl, rfl, by decide, by decide, by decide, by decide, by decide,
    by decide⟩

end SunspecProxy
